import Mathlib

/-
Shallow embedding of the PGVCL Smart Assistant single-file application
(src/ab.py): a Streamlit app with a hardcoded login gate, a directory of
uploaded PDF documents, and a question-answering loop that sends the whole
selected document plus a fixed instruction preamble to a remote generation
endpoint on every turn.

The app is re-run on every user interaction; each definition below models
one run (or one pure step) of the corresponding Python function. Document
bytes become `List Nat`; Python `None`-able values become `Option`;
Python truthiness tests (`if document_data:`, `if gemini_response:`,
`if not api_key:`) are modelled by explicit emptiness checks, matching
the semantics of `bytes`, `str` and `None` truthiness.
-/

set_option autoImplicit false

namespace PGVCL

/-- Raw document bytes, as read from disk (`Python bytes`). -/
abbrev Bytes := List Nat

/-- ab.py line 48: the hardcoded admin username. -/
def ADMIN_USERNAME : String := "admin"

/-- ab.py line 49: the hardcoded admin password. -/
def ADMIN_PASSWORD : String := "password123"

/-- ab.py lines 39-45: the fixed system instruction preamble sent with every
generation request. -/
def SYSTEM_PROMPT : String :=
  "You are a helpful assistant designed to answer questions specifically about the provided PGVCL (Paschim Gujarat Vij Company Limited) document.\n\n*   Answer questions to the point and concisely.\n*   If you are unsure about what the user is asking or the question is ambiguous, ask for clarification.\n*   **ONLY answer questions related to the content of the provided PGVCL document.** If the user asks about something else, respond with: \"I am the PGVCL chatbot. I can only answer questions regarding the content of the document selected.\"\n*   If the information is not found in the document, respond with \"I am sorry, but I am unable to find the answer to your question in the provided document.\"\n"

/-- ab.py line 98: the literal returned by generate_response when no
document data is available. -/
def NO_DOCUMENT_REMINDER : String :=
  "Please select a PGVCL document to ask questions about."

/-- The tri-state authentication flag st.session_state[\x22authentication_status\x22]
(ab.py lines 30-31): None / True / False. -/
inductive AuthState
  | unauthenticated
  | authenticated
  | rejected
deriving DecidableEq

/-- ab.py lines 27-31: authentication_status is initialised to None. -/
def initial_auth : AuthState := AuthState.unauthenticated

/-- One run of check_password (ab.py lines 51-71). `attempt` is the
(username, password) submitted via the Login button during this run, or
none when the button was not clicked. Returns the authentication state
after the run and whether check_password returned True (so that the admin
page renders in this run).

Source trace: the login form is rendered only when the status is None
(line 53); on a click, matching credentials set the status to True and
call st.rerun (lines 58-61, so the current run never returns True), a
mismatch sets the status to False (lines 62-65); when the status is
already True the function returns True (lines 68-69); when the status is
False the form is NOT rendered and the function returns False
(lines 70-71), so any submitted credentials are never read. -/
def check_password_run (auth : AuthState) (attempt : Option (String × String)) :
    AuthState × Bool :=
  match auth with
  | AuthState.unauthenticated =>
    match attempt with
    | none => (AuthState.unauthenticated, false)
    | some (u, p) =>
      if u = ADMIN_USERNAME ∧ p = ADMIN_PASSWORD then
        (AuthState.authenticated, false)
      else
        (AuthState.rejected, false)
  | AuthState.authenticated => (AuthState.authenticated, true)
  | AuthState.rejected => (AuthState.rejected, false)

/-- ab.py lines 218-224: the page radio selects Admin Side or User Side;
the admin page is rendered only when check_password() returns True.
Returns the new auth state and whether admin_page (with its upload and
delete controls) was rendered in this run. -/
def main_run (page : String) (auth : AuthState) (attempt : Option (String × String)) :
    AuthState × Bool :=
  if page = "Admin Side" then
    check_password_run auth attempt
  else
    (auth, false)

/-- One part of a request message (ab.py lines 91-94): either the inline
PDF attachment dict or a plain text string. -/
inductive Part
  | pdf (data : Bytes)
  | text (s : String)
deriving DecidableEq

/-- One message of a generation request (ab.py lines 89-95). -/
structure Message where
  role : String
  parts : List Part
deriving DecidableEq

/-- One entry of st.session_state[\x22chat_history\x22] (ab.py lines 192-193). -/
structure ChatMessage where
  role : String
  content : String
deriving DecidableEq

/-- The prompt_feedback metadata of an upstream response (ab.py lines
102-103). -/
structure Feedback where
  block_reason : Option String
deriving DecidableEq

/-- The behaviour of the remote endpoint on one call: either the call (or
the later response.text access) raises, or it returns a response whose
prompt_feedback and text accessor behave as recorded. -/
inductive Upstream
  | raises (e : String)
  | returns (prompt_feedback : Option Feedback) (text : Except String String)

/-- Python truthiness of the document_data argument (ab.py line 87):
None and empty bytes are falsy. -/
def pyTruthyBytes : Option Bytes → Bool
  | none => false
  | some b => !b.isEmpty

/-- ab.py lines 88-96: the contents list built for a call — exactly one
message of role user with two parts, the PDF bytes and the single string made of system_prompt, a newline, then prompt. -/
def build_contents (prompt : String) (document_data : Bytes) (system_prompt : String) :
    List Message :=
  [⟨"user", [Part.pdf document_data, Part.text (system_prompt ++ "\n" ++ prompt)]⟩]

/-- The observable outcome of one generate_response run: the returned
text, or the moderation-blocked path (st.warning + return None, ab.py
lines 102-107), or the exception path (st.error + return None, ab.py
lines 110-112). -/
inductive Outcome
  | text (s : String)
  | blocked (reason : String)
  | failed (err : String)
deriving DecidableEq

/-- The Python return value of generate_response for each outcome: the
text on success, None on the blocked and the exception paths. -/
def Outcome.pyReturn : Outcome → Option String
  | Outcome.text s => some s
  | Outcome.blocked _ => none
  | Outcome.failed _ => none

/-- ab.py lines 100-112: the call to model.generate_content and the
handling of its response inside the try block. -/
def call_endpoint (upstream : Upstream) : Outcome :=
  match upstream with
  | Upstream.raises e => Outcome.failed e
  | Upstream.returns fb txt =>
    match fb with
    | some f =>
      match f.block_reason with
      | some reason => Outcome.blocked reason
      | none =>
        match txt with
        | Except.ok s => Outcome.text s
        | Except.error e => Outcome.failed e
    | none =>
      match txt with
      | Except.ok s => Outcome.text s
      | Except.error e => Outcome.failed e

/-- generate_response (ab.py lines 84-112). Returns the outcome together
with the list of requests actually sent to the remote endpoint during the
call (empty when the endpoint was never reached). When document_data is
falsy (None or empty bytes) the function returns the fixed reminder
string without any remote call (lines 87, 97-98). -/
def generate_response (prompt : String) (document_data : Option Bytes)
    (system_prompt : String) (upstream : Upstream) : Outcome × List (List Message) :=
  if pyTruthyBytes document_data then
    let contents := build_contents prompt (document_data.getD []) system_prompt
    (call_endpoint upstream, [contents])
  else
    (Outcome.text NO_DOCUMENT_REMINDER, [])

/-- ab.py lines 191-193: the transcript mutation after a generation call.
`resp` is the Python return value of generate_response; the two messages
are appended only when it is truthy (a non-None, non-empty string). -/
def append_round (history : List ChatMessage) (prompt : String) (resp : Option String) :
    List ChatMessage :=
  match resp with
  | none => history
  | some r =>
    if r.isEmpty then history
    else history ++ [⟨"user", prompt⟩, ⟨"model", r⟩]

/-- The observable effects of one run of user_page on a question
submission. -/
structure UserRun where
  history : List ChatMessage
  requests : List (List Message)
  prompt_shown : Bool
deriving DecidableEq

/-- One run of user_page (ab.py lines 151-212) restricted to the
question/answer flow: when the loaded document value in session state is
None the question input is not rendered at all (lines 175, 211-212); when
it is present the input is shown, and a non-empty submitted prompt
triggers exactly one generate_response call (lines 176-189) followed by
the transcript mutation (lines 191-193). -/
def user_page_run (history : List ChatMessage) (document_data : Option Bytes)
    (user_prompt : String) (upstream : Upstream) : UserRun :=
  match document_data with
  | none => ⟨history, [], false⟩
  | some _ =>
    if user_prompt.isEmpty then ⟨history, [], true⟩
    else
      let r := generate_response user_prompt document_data SYSTEM_PROMPT upstream
      ⟨append_round history user_prompt r.1.pyReturn, r.2, true⟩

/-- The document store directory as an association of file names to byte
contents; a real directory holds each name at most once. -/
abbrev Store := List (String × Bytes)

/-- ab.py lines 121-124: open(file_path, \x22wb\x22) creates the file or
silently truncates and overwrites an existing one of the same name. -/
def fs_save : Store → String → Bytes → Store
  | [], name, data => [(name, data)]
  | (k, v) :: rest, name, data =>
    if k = name then (name, data) :: rest
    else (k, v) :: fs_save rest name data

/-- Python s.endswith(\x22.pdf\x22) (ab.py lines 131, 156): the last four
characters of the name are .pdf. -/
def endswith_pdf (s : String) : Bool :=
  s.data.reverse.take 4 = ".pdf".data.reverse

/-- ab.py line 131: the directory listing filtered to names ending in
.pdf. -/
def fs_list (fs : Store) : List String :=
  (fs.map Prod.fst).filter endswith_pdf

/-- Reading a stored file back: the bytes under the name, if present. -/
def fs_lookup : Store → String → Option Bytes
  | [], _ => none
  | (k, v) :: rest, name => if k = name then some v else fs_lookup rest name

/-- ab.py lines 15-18: api_key = os.getenv(...); if not api_key: st.error
and st.stop() before any page is served. The argument is the environment
value (none when the variable is absent); the Python truthiness test
halts both on None and on an empty string. -/
def startup_halts : Option String → Bool
  | none => true
  | some s => s.isEmpty

/-- Whether an outcome is the exception (Failed) path of generate_response. -/
def Outcome.isFailed : Outcome → Bool
  | Outcome.failed _ => true
  | _ => false

/-- generate_response sends at most one request per call. -/
theorem generate_response_requests_le_one (q : String) (dd : Option Bytes) (s : String)
    (u : Upstream) : (generate_response q dd s u).2.length ≤ 1 := by
  unfold generate_response
  split <;> simp

/-- Claim C1 evaluated on the code: once the authentication status is
Rejected, check_password hides the login form and ignores any submitted
credentials, so the state stays Rejected even when the configured
credentials are submitted; the Rejected to Authenticated transition of the
claim is unreachable. -/
theorem C1_rejected_is_absorbing :
    check_password_run AuthState.rejected (some (ADMIN_USERNAME, ADMIN_PASSWORD))
      = (AuthState.rejected, false) ∧
    ∀ attempt, check_password_run AuthState.rejected attempt = (AuthState.rejected, false) :=
  ⟨rfl, fun _ => rfl⟩

/-- Claim C6: from the Unauthenticated state, a submitted pair yields
Authenticated exactly when it equals the configured credentials under
case-sensitive string equality on both components, and Rejected otherwise. -/
theorem C6_attempt_exact_match (u p : String) :
    ((check_password_run AuthState.unauthenticated (some (u, p))).1 = AuthState.authenticated
      ↔ (u = ADMIN_USERNAME ∧ p = ADMIN_PASSWORD)) ∧
    ((check_password_run AuthState.unauthenticated (some (u, p))).1 = AuthState.rejected
      ↔ ¬(u = ADMIN_USERNAME ∧ p = ADMIN_PASSWORD)) := by
  by_cases h : u = ADMIN_USERNAME ∧ p = ADMIN_PASSWORD <;>
    simp [check_password_run, h]

/-- Claim C7: the session starts unauthenticated, and the admin page (with
its upload and delete controls) is rendered in a run only when the
authentication status at entry is Authenticated. -/
theorem C7_admin_gate :
    initial_auth = AuthState.unauthenticated ∧
    ∀ (page : String) (auth : AuthState) (attempt : Option (String × String)),
      (main_run page auth attempt).2 = true → auth = AuthState.authenticated := by
  refine ⟨rfl, ?_⟩
  intro page auth attempt h
  unfold main_run at h
  split at h
  · cases auth with
    | unauthenticated =>
      cases attempt with
      | none => simp [check_password_run] at h
      | some a =>
        obtain ⟨u, p⟩ := a
        simp only [check_password_run] at h
        split at h <;> simp_all
    | authenticated => rfl
    | rejected => simp [check_password_run] at h
  · simp at h

/-- Witness for C7 at a concrete run. -/
theorem C7_witness :
    (main_run "Admin Side" AuthState.authenticated none).2 = true ∧
    AuthState.authenticated = AuthState.authenticated :=
  ⟨by decide, C7_admin_gate.2 "Admin Side" AuthState.authenticated none (by decide)⟩

/-- Counterexample to claim C2 as stated: with no document selected the
generator returns the fixed reminder string as an ordinary text result,
not a Failed outcome. -/
theorem C2_counterexample :
    (generate_response "q" none SYSTEM_PROMPT (Upstream.raises "e")).1
      = Outcome.text NO_DOCUMENT_REMINDER ∧
    (generate_response "q" none SYSTEM_PROMPT (Upstream.raises "e")).1.isFailed = false :=
  ⟨rfl, rfl⟩

/-- Claim C2 as amended: with document None the generator never calls the
remote endpoint and returns the fixed reminder as a text outcome; in the
user page no question input is shown when no document is loaded, so no
call is made and the transcript is unchanged. -/
theorem C2_no_document_reminder (q : String) (upstream : Upstream) (history : List ChatMessage) :
    (generate_response q none SYSTEM_PROMPT upstream).1 = Outcome.text NO_DOCUMENT_REMINDER ∧
    (generate_response q none SYSTEM_PROMPT upstream).2 = [] ∧
    (user_page_run history none q upstream).prompt_shown = false ∧
    (user_page_run history none q upstream).history = history ∧
    (user_page_run history none q upstream).requests = [] :=
  ⟨rfl, rfl, rfl, rfl, rfl⟩

/-- The reminder literal is a non-empty string. -/
theorem reminder_not_empty : NO_DOCUMENT_REMINDER.isEmpty = false := by decide

/-- Claim C3: whenever the generation call ends Blocked (non-null upstream
block reason) or Failed (an exception during the call), the user-page run
leaves the transcript unchanged and sends at most one request (no retry). -/
theorem C3_blocked_failed_unchanged (history : List ChatMessage) (document_data : Option Bytes)
    (q : String) (upstream : Upstream)
    (h : (∃ r, (generate_response q document_data SYSTEM_PROMPT upstream).1 = Outcome.blocked r) ∨
         (∃ e, (generate_response q document_data SYSTEM_PROMPT upstream).1 = Outcome.failed e)) :
    (user_page_run history document_data q upstream).history = history ∧
    (user_page_run history document_data q upstream).requests.length ≤ 1 := by
  cases document_data with
  | none => exact ⟨rfl, by simp [user_page_run]⟩
  | some b =>
    by_cases hq : q.isEmpty
    · constructor <;> simp [user_page_run, hq]
    · have hpy : (generate_response q (some b) SYSTEM_PROMPT upstream).1.pyReturn = none := by
        rcases h with ⟨r, hr⟩ | ⟨e, he⟩
        · rw [hr]; rfl
        · rw [he]; rfl
      constructor
      · simp [user_page_run, hq, hpy, append_round]
      · simpa [user_page_run, hq] using
          generate_response_requests_le_one q (some b) SYSTEM_PROMPT upstream

/-- Witness for C3 at a concrete failing call. -/
theorem C3_witness :
    (user_page_run [] (some [1]) "q" (Upstream.raises "boom")).history = [] ∧
    (user_page_run [] (some [1]) "q" (Upstream.raises "boom")).requests.length ≤ 1 :=
  C3_blocked_failed_unchanged [] (some [1]) "q" (Upstream.raises "boom")
    (Or.inr ⟨"boom", rfl⟩)

/-- Counterexample to claim C4 as stated: a generation call that returns a
Text outcome whose answer is the empty string appends nothing to the
transcript, because the code tests the returned value for Python
truthiness before appending. -/
theorem C4_counterexample :
    (generate_response "q" (some [1]) SYSTEM_PROMPT (Upstream.returns none (Except.ok ""))).1
      = Outcome.text "" ∧
    (user_page_run [] (some [1]) "q" (Upstream.returns none (Except.ok ""))).history = [] :=
  ⟨rfl, rfl⟩

/-- Claim C4 as amended: a generation call that returns a Text outcome
with a non-empty answer appends exactly two messages in order, the user
question then the model answer, and the prior transcript is preserved
unchanged as a prefix. -/
theorem C4_text_appends_two (history : List ChatMessage) (document_data : Option Bytes)
    (q a : String) (upstream : Upstream)
    (hd : document_data.isSome = true)
    (hq : q.isEmpty = false)
    (h : (generate_response q document_data SYSTEM_PROMPT upstream).1 = Outcome.text a)
    (ha : a.isEmpty = false) :
    (user_page_run history document_data q upstream).history =
      history ++ [⟨"user", q⟩, ⟨"model", a⟩] := by
  cases document_data with
  | none => simp at hd
  | some b =>
    simp [user_page_run, hq, h, Outcome.pyReturn, append_round, ha]

/-- Witness for C4 at a concrete successful call. -/
theorem C4_witness :
    (user_page_run [] (some [1]) "q" (Upstream.returns none (Except.ok "ans"))).history =
      [] ++ [⟨"user", "q"⟩, ⟨"model", "ans"⟩] :=
  C4_text_appends_two [] (some [1]) "q" "ans" (Upstream.returns none (Except.ok "ans"))
    rfl (by decide) rfl (by decide)

/-- Claim C5: a call with a selected (non-empty) document d sends exactly
one request, holding exactly one message of role user with exactly two
parts, the PDF bytes d and the single text string formed from the system
instructions, a line break, then the question; the generator takes no
transcript input (mirroring the source), so no prior chat-history message
is included. -/
theorem C5_request_shape (q s : String) (d : Bytes) (upstream : Upstream)
    (history : List ChatMessage) (hd : d.isEmpty = false) (hq : q.isEmpty = false) :
    (generate_response q (some d) s upstream).2 =
      [[⟨"user", [Part.pdf d, Part.text (s ++ "\n" ++ q)]⟩]] ∧
    (user_page_run history (some d) q upstream).requests =
      [[⟨"user", [Part.pdf d, Part.text (SYSTEM_PROMPT ++ "\n" ++ q)]⟩]] := by
  constructor <;>
    simp [generate_response, user_page_run, pyTruthyBytes, hd, hq, build_contents]

/-- Witness for C5 at a concrete call. -/
theorem C5_witness :
    (generate_response "q" (some [1]) "s" (Upstream.raises "e")).2 =
      [[⟨"user", [Part.pdf [1], Part.text ("s" ++ "\n" ++ "q")]⟩]] ∧
    (user_page_run [] (some [1]) "q" (Upstream.raises "e")).requests =
      [[⟨"user", [Part.pdf [1], Part.text (SYSTEM_PROMPT ++ "\n" ++ "q")]⟩]] :=
  C5_request_shape "q" "s" [1] (Upstream.raises "e") [] (by decide) (by decide)

/-- Claim C10: with an empty selected document (zero-length bytes) the
question input is still shown, submitting a non-empty question makes no
remote call, the generator returns the fixed reminder text, and the
round appends the question and the reminder (as a model message) to the
transcript. -/
theorem C10_empty_document (history : List ChatMessage) (q : String) (upstream : Upstream)
    (hq : q.isEmpty = false) :
    (user_page_run history (some []) q upstream).prompt_shown = true ∧
    (user_page_run history (some []) q upstream).requests = [] ∧
    (generate_response q (some []) SYSTEM_PROMPT upstream).1
      = Outcome.text NO_DOCUMENT_REMINDER ∧
    (user_page_run history (some []) q upstream).history =
      history ++ [⟨"user", q⟩, ⟨"model", NO_DOCUMENT_REMINDER⟩] := by
  refine ⟨?_, ?_, rfl, ?_⟩ <;>
    simp [user_page_run, hq, generate_response, pyTruthyBytes, append_round,
      Outcome.pyReturn, reminder_not_empty]

/-- Witness for C10 at a concrete question. -/
theorem C10_witness :
    (user_page_run [] (some []) "q" (Upstream.raises "e")).history =
      [] ++ [⟨"user", "q"⟩, ⟨"model", NO_DOCUMENT_REMINDER⟩] :=
  (C10_empty_document [] "q" (Upstream.raises "e") (by decide)).2.2.2

/-- Counterexample to claim C9 as stated: an API credential that is
present in the environment but empty also halts startup, because the code
tests Python truthiness rather than presence. -/
theorem C9_counterexample :
    (some "" : Option String).isSome = true ∧ startup_halts (some "") = true :=
  ⟨rfl, rfl⟩

/-- Claim C9 as amended: startup halts with a visible error before serving
any screen exactly when the credential is absent from the environment or
present with an empty value; otherwise startup proceeds. -/
theorem C9_halts_iff_absent_or_empty (key : Option String) :
    startup_halts key = true ↔ (key = none ∨ key = some "") := by
  cases key with
  | none => simp [startup_halts]
  | some s => simp [startup_halts, String.isEmpty_iff]

/-- Saving under a name either replaces the entry already holding that
name or appends a new entry; stated on the name lists. -/
theorem keys_fs_save (fs : Store) (name : String) (data : Bytes) :
    ((fs_save fs name data).map Prod.fst = fs.map Prod.fst ∧ name ∈ fs.map Prod.fst) ∨
    ((fs_save fs name data).map Prod.fst = fs.map Prod.fst ++ [name] ∧
      name ∉ fs.map Prod.fst) := by
  induction fs with
  | nil => exact Or.inr (by simp [fs_save])
  | cons kv rest ih =>
    obtain ⟨k, v⟩ := kv
    by_cases hkn : k = name
    · subst hkn
      refine Or.inl ⟨?_, by simp⟩
      rw [show fs_save ((k, v) :: rest) k data = (k, data) :: rest from by simp [fs_save]]
      simp
    · rw [show fs_save ((k, v) :: rest) name data = (k, v) :: fs_save rest name data from by
        simp [fs_save, hkn]]
      rcases ih with ⟨heq, hmem⟩ | ⟨heq, hmem⟩
      · exact Or.inl ⟨by simp [heq], by simp [hmem]⟩
      · refine Or.inr ⟨by simp [heq], ?_⟩
        simp only [List.map_cons, List.mem_cons]
        rintro (h1 | h1)
        · exact hkn h1.symm
        · exact hmem h1

/-- Saving preserves the no-duplicate-names property of a directory. -/
theorem nodup_keys_fs_save (fs : Store) (name : String) (data : Bytes)
    (h : (fs.map Prod.fst).Nodup) :
    ((fs_save fs name data).map Prod.fst).Nodup := by
  rcases keys_fs_save fs name data with ⟨heq, _⟩ | ⟨heq, hmem⟩
  · rw [heq]; exact h
  · rw [heq, List.nodup_append]
    refine ⟨h, List.nodup_singleton name, ?_⟩
    intro a ha hb
    rw [List.mem_singleton] at hb
    subst hb
    exact hmem ha

/-- In a duplicate-free store, a saved name occurs exactly once among the
names afterwards. -/
theorem count_keys_fs_save (fs : Store) (name : String) (data : Bytes)
    (h : (fs.map Prod.fst).Nodup) :
    ((fs_save fs name data).map Prod.fst).count name = 1 := by
  rcases keys_fs_save fs name data with ⟨heq, hmem⟩ | ⟨heq, hmem⟩
  · rw [heq]
    exact List.count_eq_one_of_mem h hmem
  · rw [heq, List.count_append, List.count_eq_zero_of_not_mem hmem,
      List.count_singleton_self]

/-- Reading a name back after saving it yields the bytes just saved. -/
theorem fs_lookup_fs_save (fs : Store) (name : String) (data : Bytes) :
    fs_lookup (fs_save fs name data) name = some data := by
  induction fs with
  | nil => simp [fs_save, fs_lookup]
  | cons kv rest ih =>
    obtain ⟨k, v⟩ := kv
    by_cases hkn : k = name
    · subst hkn
      rw [show fs_save ((k, v) :: rest) k data = (k, data) :: rest from by simp [fs_save]]
      simp [fs_lookup]
    · rw [show fs_save ((k, v) :: rest) name data = (k, v) :: fs_save rest name data from by
        simp [fs_save, hkn]]
      simp [fs_lookup, hkn, ih]

/-- Claim C8: in a directory with no duplicate names, saving a file named
with the .pdf suffix and then listing yields that name exactly once;
re-saving under the same name overwrites the bytes silently, creates no
duplicate entry, and a read afterwards returns the newly saved bytes. -/
theorem C8_save_then_list_once (fs : Store) (name : String) (d1 d2 : Bytes)
    (hnodup : (fs.map Prod.fst).Nodup) (hpdf : endswith_pdf name = true) :
    (fs_list (fs_save fs name d1)).count name = 1 ∧
    (fs_list (fs_save (fs_save fs name d1) name d2)).count name = 1 ∧
    fs_lookup (fs_save (fs_save fs name d1) name d2) name = some d2 := by
  refine ⟨?_, ?_, fs_lookup_fs_save _ _ _⟩
  · unfold fs_list
    rw [List.count_filter hpdf]
    exact count_keys_fs_save fs name d1 hnodup
  · unfold fs_list
    rw [List.count_filter hpdf]
    exact count_keys_fs_save _ name d2 (nodup_keys_fs_save fs name d1 hnodup)

/-- Witness for C8 at a concrete store. -/
theorem C8_witness :
    (([("a.pdf", [0])] : Store).map Prod.fst).Nodup ∧ endswith_pdf "x.pdf" = true ∧
    (fs_list (fs_save [("a.pdf", [0])] "x.pdf" [1])).count "x.pdf" = 1 ∧
    fs_lookup (fs_save (fs_save [("a.pdf", [0])] "x.pdf" [1]) "x.pdf" [2]) "x.pdf"
      = some [2] := by
  refine ⟨by decide, by decide, ?_, ?_⟩
  · exact (C8_save_then_list_once [("a.pdf", [0])] "x.pdf" [1] [2] (by decide) (by decide)).1
  · exact (C8_save_then_list_once [("a.pdf", [0])] "x.pdf" [1] [2] (by decide) (by decide)).2.2

end PGVCL
